import Mathlib

/-!
Shallow embedding of the react-vtk-js core components:
* `PolyData` (the DataSetNode wrapper around a native vtkPolyData),
* `View` (ViewNode owning render window / renderer / interactor),
* `MultiViewRoot` (root ViewNode with the `triggerRender` deferred render).

JavaScript arrays are modelled with an explicit reference identity (`ref`)
so that the `!==` reference diffing of the source can be expressed, plus
their numeric contents.  Numbers are modelled as `Int`; typed-array
conversions (`Uint16Array.from` / `Uint32Array.from`) truncate modulo the
element width, as ToUint16/ToUint32 do on integral inputs.
-/

/-- A JavaScript array as seen by the component props: a reference identity
(used by the source's `!==` diffing) together with its numeric contents. -/
structure JSArr where
  ref : Nat
  data : List Int
deriving DecidableEq, Repr

/-- Element width of the typed array a cell-connectivity block is stored in. -/
inductive CellWidth where
  | narrow16
  | wide32
deriving DecidableEq, Repr

/-- The four cell-array slots of a vtkPolyData. -/
inductive CellSlot where
  | verts
  | lines
  | polys
  | strips
deriving DecidableEq, Repr

/-- One `setData` write into the native dataset performed by
`PolyData.update`.  `synthesized` is `true` for blocks generated by the
implicit connectivity modes and `false` for caller-supplied arrays. -/
inductive Write where
  | pointsData (data : List Int)
  | cellData (slot : CellSlot) (width : CellWidth) (data : List Int)
      (synthesized : Bool)
deriving DecidableEq, Repr

/-- JavaScript runtime errors the embedded code can raise. -/
inductive JSError where
  | rangeError
  | typeError
deriving DecidableEq, Repr

/-- `const cellFrom = points.length > 196608 ? Uint32Array.from
: Uint16Array.from;` — the index width chosen for caller-supplied cell
arrays, by the total length of the `points` prop array. -/
def cellWidthFor (pointsLen : Nat) : CellWidth :=
  if pointsLen > 196608 then CellWidth.wide32 else CellWidth.narrow16

/-- Numeric truncation performed by `Uint16Array.from` / `Uint32Array.from`
on integral inputs. -/
def truncateTo (w : CellWidth) (xs : List Int) : List Int :=
  match w with
  | CellWidth.narrow16 => xs.map (fun x => x % 65536)
  | CellWidth.wide32 => xs.map (fun x => x % 4294967296)

/-- The declarative props of a `PolyData` component.  `points` is always an
array (the component's default props supply `[]`); the cell arrays are
optional.  `connectivity` defaults to `"manual"`. -/
structure PolyDataProps where
  connectivity : String
  points : JSArr
  verts : Option JSArr
  lines : Option JSArr
  polys : Option JSArr
  strips : Option JSArr
deriving DecidableEq, Repr

/-- `if (points && (!previous || points !== previous.points))` — the write
of the points array, guarded by reference diffing against the previous
props snapshot. -/
def pointsWrite (points : JSArr) (previous : Option PolyDataProps) :
    List Write :=
  match previous with
  | none => [Write.pointsData points.data]
  | some p =>
      if points.ref != p.points.ref then [Write.pointsData points.data]
      else []

/-- The reference diff for one caller-supplied cell array: `!previous ||
cur !== previous.<slot>` (an array compared against `undefined` is
different). -/
def manualCellChanged (a : JSArr) (prevArr : Option (Option JSArr)) : Bool :=
  match prevArr with
  | none => true
  | some none => true
  | some (some b) => a.ref != b.ref

/-- `if (verts && (!previous || verts !== previous.verts)) { ...setData
(cellFrom(verts)) }` — the write of one caller-supplied cell array,
guarded by reference diffing.  `prevArr` is the same slot of the previous
props snapshot (when a snapshot exists). -/
def manualCellWrites (cur : Option JSArr) (prevArr : Option (Option JSArr))
    (slot : CellSlot) (w : CellWidth) : List Write :=
  match cur with
  | none => []
  | some a =>
      if manualCellChanged a prevArr then
        [Write.cellData slot w (truncateTo w a.data) false]
      else []

/-- The source's connectivity-branch guard, written exactly as the
condition `connectivity && (connectivity || !previous || connectivity !==
previous.connectivity)` (string truthiness is non-emptiness; the inner
disjunction is short-circuited by its first disjunct). -/
def connectivityBranchTaken (props : PolyDataProps)
    (previous : Option PolyDataProps) : Bool :=
  (props.connectivity != "") &&
    ((props.connectivity != "") ||
      previous.isNone ||
      (match previous with
       | none => true
       | some p => props.connectivity != p.connectivity))

/-- The block built in the `points` and `strips` modes: a `Uint32Array` of
size `nbPoints + 1` holding `nbPoints` followed by `0, 1, ..., nbPoints-1`. -/
def pointsModeBlock (nbPoints : Nat) : List Int :=
  (nbPoints : Int) :: (List.range nbPoints).map (fun i => (i : Int))

/-- The `triangles`-mode fill loop: `for (let i = 0; i < nbPoints; i += 3)`
appending `3, i, i+1, i+2` each iteration.  `fuel` bounds the recursion
(the loop performs at most `nbPoints` iterations). -/
def trianglesFill (nbPoints i fuel : Nat) : List Int :=
  match fuel with
  | 0 => []
  | f + 1 =>
      if i < nbPoints then
        (3 : Int) :: (i : Int) :: ((i : Int) + 1) :: ((i : Int) + 2) ::
          trianglesFill nbPoints (i + 3) f
      else []

/-- The `switch (connectivity)` body.  `nbPoints = points.length / 3` is a
real-number division in the source; a fractional typed-array length
(`new Uint32Array(len)`) raises a `RangeError`, so the `points`/`strips`
modes require `points.length % 3 = 0` and the `triangles` mode requires
`nbPoints + nbPoints / 3` to be integral, i.e. `points.length % 9 = 0`.
All three modes build a `Uint32Array`, hence wide blocks. -/
def synthesizeConnectivity (props : PolyDataProps) :
    Except JSError (List Write) :=
  match props.connectivity with
  | "points" =>
      if props.points.data.length % 3 ≠ 0 then Except.error JSError.rangeError
      else
        Except.ok
          [Write.cellData CellSlot.verts CellWidth.wide32
            (pointsModeBlock (props.points.data.length / 3)) true]
  | "triangles" =>
      if props.points.data.length % 9 ≠ 0 then Except.error JSError.rangeError
      else
        Except.ok
          [Write.cellData CellSlot.polys CellWidth.wide32
            (trianglesFill (props.points.data.length / 3) 0
              (props.points.data.length / 3)) true]
  | "strips" =>
      if props.points.data.length % 3 ≠ 0 then Except.error JSError.rangeError
      else
        Except.ok
          [Write.cellData CellSlot.strips CellWidth.wide32
            (pointsModeBlock (props.points.data.length / 3)) true]
  | _ => Except.ok []

/-- The observable outcome of one `PolyData.update` call: the `setData`
writes performed in order, how many times `polydata.modified()` ran, how
many times `representation.dataChanged()` ran, and the exception that
escaped, if any (writes performed before a throw still happened). -/
structure UpdateOutcome where
  writes : List Write
  modifiedCalls : Nat
  dataChangedCalls : Nat
  thrown : Option JSError
deriving DecidableEq, Repr

/-- The tail of `PolyData.update`: `if (changeDetected) { modified(); if
(this.representation) dataChanged(); }`.  `changeDetected` is set exactly
by the branches that perform a write, so it equals `writes ≠ []`. -/
def finishUpdate (writes : List Write) (hasRep : Bool) : UpdateOutcome :=
  ⟨writes,
   if writes.isEmpty then 0 else 1,
   if writes.isEmpty then 0 else if hasRep then 1 else 0,
   none⟩

/-- The writes produced by the five reference-diffed attribute pushes of
`PolyData.update`, in source order, all cell pushes using the width
chosen from `points.length`. -/
def polyDataManualWrites (props : PolyDataProps)
    (previous : Option PolyDataProps) : List Write :=
  pointsWrite props.points previous ++
  manualCellWrites props.verts (previous.map (fun p => p.verts))
    CellSlot.verts (cellWidthFor props.points.data.length) ++
  manualCellWrites props.lines (previous.map (fun p => p.lines))
    CellSlot.lines (cellWidthFor props.points.data.length) ++
  manualCellWrites props.polys (previous.map (fun p => p.polys))
    CellSlot.polys (cellWidthFor props.points.data.length) ++
  manualCellWrites props.strips (previous.map (fun p => p.strips))
    CellSlot.strips (cellWidthFor props.points.data.length)

/-- `PolyData.update(props, previous)`, with `hasRep` standing for
`this.representation` being non-null.  A `RangeError` raised while
building a synthesized block escapes before the `modified()` /
`dataChanged()` tail runs; the manual writes already performed stay. -/
def polyDataUpdate (props : PolyDataProps) (previous : Option PolyDataProps)
    (hasRep : Bool) : UpdateOutcome :=
  if connectivityBranchTaken props previous then
    match synthesizeConnectivity props with
    | Except.error e => ⟨polyDataManualWrites props previous, 0, 0, some e⟩
    | Except.ok connWrites =>
        finishUpdate (polyDataManualWrites props previous ++ connWrites)
          hasRep
  else
    finishUpdate (polyDataManualWrites props previous) hasRep

/-- The instance references a `PolyData` keeps to its context providers.
Provider handles are identified by a `Nat`. -/
structure PolyDataRefs where
  theRep : Option Nat
  downstream : Option Nat
deriving DecidableEq, Repr

/-- Fresh instance: both references unset (`undefined`). -/
def polyDataInitRefs : PolyDataRefs := ⟨none, none⟩

/-- One render pass of `PolyData.render`: `this.representation =
representation;` overwrites unconditionally, while `if (!this.downstream)
{ this.downstream = downstream; }` only assigns while the stored value is
still null/undefined. -/
def polyDataRender (s : PolyDataRefs) (repCtx downstreamCtx : Option Nat) :
    PolyDataRefs :=
  ⟨repCtx,
   match s.downstream with
   | some d => some d
   | none => downstreamCtx⟩

/-- A sequence of render passes, each observing the context values current
at that pass. -/
def polyDataRenderSeq (s : PolyDataRefs)
    (passes : List (Option Nat × Option Nat)) : PolyDataRefs :=
  passes.foldl (fun t c => polyDataRender t c.1 c.2) s

/-- The observable outcome of `PolyData.componentDidMount`. -/
structure MountOutcome where
  writes : List Write
  modifiedCalls : Nat
  dataChangedCalls : Nat
  registered : Option (Nat × Nat)
  thrown : Option JSError
deriving DecidableEq, Repr

/-- `componentDidMount() { this.update(this.props);
this.downstream.setInputData(this.polydata, this.props.port); }` — the
update runs first (with no previous snapshot); then the dataset is
registered with the latched downstream at the given port.  When the
latched downstream is null, the member access throws a `TypeError` that
propagates to the caller and no registration happens. -/
def polyDataComponentDidMount (props : PolyDataProps) (port : Nat)
    (hasRep : Bool) (downstream : Option Nat) : MountOutcome :=
  let u := polyDataUpdate props none hasRep
  match u.thrown with
  | some e => ⟨u.writes, u.modifiedCalls, u.dataChangedCalls, none, some e⟩
  | none =>
      match downstream with
      | none =>
          ⟨u.writes, u.modifiedCalls, u.dataChangedCalls, none,
           some JSError.typeError⟩
      | some d =>
          ⟨u.writes, u.modifiedCalls, u.dataChangedCalls, some (d, port),
           none⟩

/-- Observable state of a `MultiViewRoot` relevant to the deferred-render
lifecycle: whether the owned `renderWindow` has been deleted, how many
zero-delay timers are scheduled and uncancelled, and how many times the
captured `renderWindow.render` callback has run (split by whether the
window was already deleted when it ran). -/
structure MultiViewRootState where
  renderWindowDeleted : Bool
  pendingTimers : Nat
  renderCalls : Nat
  renderCallsAfterDelete : Nat
deriving DecidableEq, Repr

/-- State right after construction and mount. -/
def multiViewRootInit : MultiViewRootState := ⟨false, 0, 0, 0⟩

/-- `update(props, previous)`: `if (previous && triggerRender !==
previous.triggerRender) { this.renderViewTimeout =
setTimeout(this.renderWindow.render, 0); }` — a changed trigger counter
schedules a zero-delay timer whose callback is the window's render
function captured at schedule time. -/
def multiViewRootUpdate (s : MultiViewRootState) (hasPrevious : Bool)
    (prevTrigger trigger : Int) : MultiViewRootState :=
  if hasPrevious && (trigger != prevTrigger) then
    ⟨s.renderWindowDeleted, s.pendingTimers + 1, s.renderCalls,
     s.renderCallsAfterDelete⟩
  else s

/-- `componentWillUnmount`: disconnects the resize observer, unbinds
interactor events, detaches the container, removes the view and deletes
interactor, render window and render-window view.  It never calls
`clearTimeout(this.renderViewTimeout)`, so scheduled timers stay pending
across teardown. -/
def multiViewRootUnmount (s : MultiViewRootState) : MultiViewRootState :=
  ⟨true, s.pendingTimers, s.renderCalls, s.renderCallsAfterDelete⟩

/-- The event loop fires one pending zero-delay timer: the captured
`renderWindow.render` is invoked unconditionally (the callback holds no
null-check or generation token). -/
def multiViewRootFireTimer (s : MultiViewRootState) : MultiViewRootState :=
  match s.pendingTimers with
  | 0 => s
  | p + 1 =>
      ⟨s.renderWindowDeleted, p, s.renderCalls + 1,
       s.renderCallsAfterDelete +
         (if s.renderWindowDeleted then 1 else 0)⟩

/-- `MultiViewRoot.onResize`: with a live container of logical size
`width × height`, the backing store is set to
`(max ⌊width·dpr⌋ 10, max ⌊height·dpr⌋ 10)` where
`dpr = window.devicePixelRatio || 1`; with no container the call is a
no-op. -/
def multiViewRootOnResize (container : Option (ℚ × ℚ))
    (devicePixelRatio : ℚ) (currentSize : ℤ × ℤ) : ℤ × ℤ :=
  match container with
  | none => currentSize
  | some (width, height) =>
      let dpr := if devicePixelRatio = 0 then 1 else devicePixelRatio
      (max ⌊width * dpr⌋ 10, max ⌊height * dpr⌋ 10)

/-- `View.onResize`: with a live container the render surface is set to
`(max width 10, max height 10)` using the logical bounding-rect size
directly — no device-pixel-ratio factor and no flooring; with no
container the call is a no-op. -/
def viewOnResize (container : Option (ℚ × ℚ)) (currentSize : ℚ × ℚ) :
    ℚ × ℚ :=
  match container with
  | none => currentSize
  | some (width, height) => (max width 10, max height 10)

/-- Modelled from the spec: the backing-store size the claim asserts for a
resize at logical size `width × height` and device pixel ratio `d`,
namely `max(floor(width·d), 10) × max(floor(height·d), 10)`. -/
def claimedBackingStoreSize (width height d : ℚ) : ℚ × ℚ :=
  (((max ⌊width * d⌋ 10 : ℤ) : ℚ), ((max ⌊height * d⌋ 10 : ℤ) : ℚ))

/-- The individual teardown effects of `View.componentWillUnmount`. -/
inductive TeardownStep where
  | removeKeyListener
  | disconnectResizeObserver
  | unbindInteractorEvents
  | detachRenderSurface
  | removeRendererFromWindow
  | removeViewFromWindow
  | releaseInteractor
  | releaseRenderer
  | releaseRenderWindow
  | releaseRenderSurface
deriving DecidableEq, Repr

/-- The effect trace of `View.componentWillUnmount`, in source order. -/
def viewUnmountTrace : List TeardownStep :=
  [TeardownStep.removeKeyListener,
   TeardownStep.disconnectResizeObserver,
   TeardownStep.unbindInteractorEvents,
   TeardownStep.detachRenderSurface,
   TeardownStep.removeRendererFromWindow,
   TeardownStep.removeViewFromWindow,
   TeardownStep.releaseInteractor,
   TeardownStep.releaseRenderer,
   TeardownStep.releaseRenderWindow,
   TeardownStep.releaseRenderSurface]

/-- The strict order the teardown claim requires. -/
def claimedTeardownOrder : List TeardownStep :=
  [TeardownStep.unbindInteractorEvents,
   TeardownStep.detachRenderSurface,
   TeardownStep.removeRendererFromWindow,
   TeardownStep.removeViewFromWindow,
   TeardownStep.releaseInteractor,
   TeardownStep.releaseRenderer,
   TeardownStep.releaseRenderWindow,
   TeardownStep.releaseRenderSurface]

/-! ## Helper lemmas -/

/-- A non-throwing `PolyData.update` ends with the aggregated
`modified()` / `dataChanged()` tail over the writes it performed. -/
theorem polyDataUpdate_eq_finish (props : PolyDataProps)
    (previous : Option PolyDataProps) (hasRep : Bool)
    (h : (polyDataUpdate props previous hasRep).thrown = none) :
    polyDataUpdate props previous hasRep =
      finishUpdate (polyDataUpdate props previous hasRep).writes hasRep := by
  unfold polyDataUpdate at h ⊢
  by_cases hc : connectivityBranchTaken props previous = true
  · rw [if_pos hc] at h ⊢
    cases hs : synthesizeConnectivity props with
    | error e => rw [hs] at h; simp at h
    | ok connWrites => rfl
  · rw [if_neg hc]
    rfl

/-- Everything in a `pointsWrite` is the points write. -/
theorem mem_pointsWrite (wr : Write) (pts : JSArr)
    (previous : Option PolyDataProps) (h : wr ∈ pointsWrite pts previous) :
    wr = Write.pointsData pts.data := by
  unfold pointsWrite at h
  split at h
  · simpa using h
  · split at h
    · simpa using h
    · simp at h

/-- Everything in a `manualCellWrites` is a caller-supplied cell write at
the given slot and width. -/
theorem mem_manualCellWrites (wr : Write) (cur : Option JSArr)
    (prevArr : Option (Option JSArr)) (slot : CellSlot) (w : CellWidth)
    (h : wr ∈ manualCellWrites cur prevArr slot w) :
    ∃ d, wr = Write.cellData slot w d false := by
  unfold manualCellWrites at h
  split at h
  · simp at h
  · split at h
    · exact ⟨_, by simpa using h⟩
    · simp at h

/-- Everything in the manual part of an update is either the points write
or a caller-supplied cell write whose width was chosen from
`points.length`. -/
theorem mem_polyDataManualWrites (wr : Write) (props : PolyDataProps)
    (previous : Option PolyDataProps)
    (h : wr ∈ polyDataManualWrites props previous) :
    wr = Write.pointsData props.points.data ∨
      ∃ s d,
        wr = Write.cellData s (cellWidthFor props.points.data.length) d
          false := by
  unfold polyDataManualWrites at h
  simp only [List.mem_append] at h
  rcases h with ((((h | h) | h) | h) | h)
  · exact Or.inl (mem_pointsWrite wr props.points previous h)
  · exact Or.inr ⟨_, (mem_manualCellWrites wr _ _ _ _ h).imp fun d hd => hd⟩
  · exact Or.inr ⟨_, (mem_manualCellWrites wr _ _ _ _ h).imp fun d hd => hd⟩
  · exact Or.inr ⟨_, (mem_manualCellWrites wr _ _ _ _ h).imp fun d hd => hd⟩
  · exact Or.inr ⟨_, (mem_manualCellWrites wr _ _ _ _ h).imp fun d hd => hd⟩

/-- Everything a successful connectivity synthesis writes is a wide,
synthesized cell block. -/
theorem mem_synthesizeConnectivity (wr : Write) (props : PolyDataProps)
    (connWrites : List Write)
    (hok : synthesizeConnectivity props = Except.ok connWrites)
    (h : wr ∈ connWrites) :
    ∃ s d, wr = Write.cellData s CellWidth.wide32 d true := by
  unfold synthesizeConnectivity at hok
  split at hok
  · split at hok
    · exact absurd hok (by simp)
    · cases hok; exact ⟨_, _, by simpa using h⟩
  · split at hok
    · exact absurd hok (by simp)
    · cases hok; exact ⟨_, _, by simpa using h⟩
  · split at hok
    · exact absurd hok (by simp)
    · cases hok; exact ⟨_, _, by simpa using h⟩
  · cases hok; simp at h

/-- Every write of an update is a manual write or a write of a successful
connectivity synthesis. -/
theorem mem_polyDataUpdate_writes (wr : Write) (props : PolyDataProps)
    (previous : Option PolyDataProps) (hasRep : Bool)
    (h : wr ∈ (polyDataUpdate props previous hasRep).writes) :
    wr ∈ polyDataManualWrites props previous ∨
      ∃ connWrites, synthesizeConnectivity props = Except.ok connWrites ∧
        wr ∈ connWrites := by
  unfold polyDataUpdate at h
  by_cases hc : connectivityBranchTaken props previous = true
  · rw [if_pos hc] at h
    cases hs : synthesizeConnectivity props with
    | error e => rw [hs] at h; exact Or.inl (by simpa using h)
    | ok connWrites =>
        rw [hs] at h
        rcases List.mem_append.mp (by simpa [finishUpdate] using h) with
          h1 | h2
        · exact Or.inl h1
        · exact Or.inr ⟨connWrites, rfl, h2⟩
  · rw [if_neg hc] at h
    exact Or.inl (by simpa [finishUpdate] using h)

/-- The `triangles` fill loop produces the concatenation of the blocks
`[3, i, i+1, i+2]` for `i = start, start+3, ...`, given enough fuel. -/
theorem trianglesFill_concat (m : Nat) : ∀ (i fuel : Nat), m ≤ fuel →
    trianglesFill (i + 3 * m) i fuel =
      (List.range' i m 3).flatMap
        (fun j => [(3 : Int), (j : Int), (j : Int) + 1, (j : Int) + 2]) := by
  induction m with
  | zero =>
      intro i fuel _
      cases fuel with
      | zero => simp [trianglesFill]
      | succ f => simp [trianglesFill]
  | succ m ih =>
      intro i fuel hf
      cases fuel with
      | zero => exact absurd hf (by omega)
      | succ f =>
          have hi : i < i + 3 * (m + 1) := by omega
          have heq : i + 3 * (m + 1) = (i + 3) + 3 * m := by omega
          rw [List.range'_succ]
          simp only [trianglesFill, if_pos hi]
          rw [heq, ih (i + 3) f (by omega)]
          simp

/-! ## Claim theorems -/

/-- Claim C1 (code evidence): a deferred render scheduled by a
`triggerRender` change and still pending at unmount is not cancelled by
`componentWillUnmount` (which never calls `clearTimeout`), so when the
zero-delay timer fires after teardown the captured `renderWindow.render`
of the already-deleted render window is invoked: the render IS invoked
after teardown, contradicting the claim that the pending callback becomes
a no-op. -/
theorem multiViewRoot_pending_render_fires_after_teardown :
    (multiViewRootUnmount (multiViewRootUpdate multiViewRootInit true 0 1)).pendingTimers
        = 1 ∧
    (multiViewRootFireTimer (multiViewRootUnmount
        (multiViewRootUpdate multiViewRootInit true 0 1))).renderCallsAfterDelete
      = 1 := by
  decide

/-- Props used to exhibit the dead connectivity diff: an implicit
`triangles` mode with a fixed points array. -/
def c2TriangleProps : PolyDataProps :=
  ⟨"triangles", ⟨0, [0, 0, 0, 1, 0, 0, 0, 1, 0]⟩, none, none, none, none⟩

/-- Claim C2 (code evidence): updating with the exact same props snapshot
(every attribute reference-equal to the previous one, connectivity string
unchanged) still re-writes the synthesized polys block and fires one
`modified()` and one `dataChanged()`, because the guard
`connectivity && (connectivity || !previous || connectivity !==
previous.connectivity)` short-circuits on its first inner disjunct and
the `!==` diff is dead code.  The claim says such an update fires no
write, no `modified()` and no `dataChanged()`. -/
theorem polyDataUpdate_unchanged_props_still_notifies :
    (polyDataUpdate c2TriangleProps (some c2TriangleProps) true).writes ≠ [] ∧
    (polyDataUpdate c2TriangleProps (some c2TriangleProps) true).modifiedCalls
        = 1 ∧
    (polyDataUpdate c2TriangleProps (some c2TriangleProps) true).dataChangedCalls
        = 1 := by
  decide

/-- Claim C7: `View.componentWillUnmount` performs the eight claimed
teardown effects exactly in the claimed strict order — its effect trace
is the key-listener and resize-observer removals followed by precisely
that sequence. -/
theorem viewUnmount_strict_teardown_order :
    viewUnmountTrace =
      [TeardownStep.removeKeyListener,
       TeardownStep.disconnectResizeObserver] ++ claimedTeardownOrder ∧
    List.Sublist claimedTeardownOrder viewUnmountTrace := by
  constructor
  · rfl
  · decide

/-- Claim C3: an update cycle that detected at least one change (and did
not abort on an exception) performs exactly one aggregated `modified()`
call and delivers exactly one `dataChanged()` notification to the owning
Representation — never one per changed attribute. -/
theorem polyDataUpdate_single_aggregated_notification
    (props : PolyDataProps) (previous : Option PolyDataProps)
    (hok : (polyDataUpdate props previous true).thrown = none)
    (hchange : (polyDataUpdate props previous true).writes ≠ []) :
    (polyDataUpdate props previous true).modifiedCalls = 1 ∧
    (polyDataUpdate props previous true).dataChangedCalls = 1 := by
  have hfin := polyDataUpdate_eq_finish props previous true hok
  cases hw : (polyDataUpdate props previous true).writes with
  | nil => exact absurd hw hchange
  | cons a l =>
      rw [hfin, hw]
      simp [finishUpdate]

/-- Next props for the C3 witness: three attributes (points, verts,
lines) changed at once relative to the previous snapshot. -/
def c3Props : PolyDataProps :=
  ⟨"manual", ⟨1, [0, 0, 0]⟩, some ⟨2, [1, 0]⟩, some ⟨3, [2, 0, 1]⟩, none,
   none⟩

/-- Previous snapshot for the C3 witness: same contents, different
references for points, verts and lines. -/
def c3Previous : PolyDataProps :=
  ⟨"manual", ⟨11, [0, 0, 0]⟩, some ⟨12, [1, 0]⟩, some ⟨13, [2, 0, 1]⟩,
   none, none⟩

/-- Witness for claim C3: an update that changes three attributes at once
satisfies the hypotheses and yields exactly one `modified()` and one
`dataChanged()`. -/
theorem polyDataUpdate_single_aggregated_notification_witness :
    (polyDataUpdate c3Props (some c3Previous) true).modifiedCalls = 1 ∧
    (polyDataUpdate c3Props (some c3Previous) true).dataChangedCalls = 1 :=
  polyDataUpdate_single_aggregated_notification c3Props (some c3Previous)
    (by decide) (by decide)

/-- Claim C4 counterexample: a `View` resized at logical size 100 × 50
under device pixel ratio 2 sets its render surface to (100, 50), not to
the claimed device-pixel-scaled backing-store size (200, 100):
`View.onResize` applies no device-pixel-ratio factor. -/
theorem viewOnResize_ignores_device_pixel_ratio :
    viewOnResize (some (100, 50)) (0, 0) ≠ claimedBackingStoreSize 100 50 2 := by
  have h1 : viewOnResize (some (100, 50)) (0, 0) = (100, 50) := by
    norm_num [viewOnResize]
  have h2 : claimedBackingStoreSize 100 50 2 = (200, 100) := by
    norm_num [claimedBackingStoreSize]
  rw [h1, h2]
  norm_num [Prod.ext_iff]

/-- Claim C4 amended: `MultiViewRoot.onResize` sets the backing store to
`max(⌊width·d⌋, 10) × max(⌊height·d⌋, 10)` (device-pixel-ratio applied,
at least 10 × 10), while a plain `View.onResize` sets the surface to
`max(width, 10) × max(height, 10)` from the logical size, without
device-pixel-ratio scaling (still at least 10 × 10). -/
theorem onResize_backing_store (width height d : ℚ) (hd : d ≠ 0) :
    multiViewRootOnResize (some (width, height)) d (0, 0) =
      (max ⌊width * d⌋ 10, max ⌊height * d⌋ 10) ∧
    10 ≤ (multiViewRootOnResize (some (width, height)) d (0, 0)).1 ∧
    10 ≤ (multiViewRootOnResize (some (width, height)) d (0, 0)).2 ∧
    viewOnResize (some (width, height)) (0, 0) =
      (max width 10, max height 10) ∧
    10 ≤ (viewOnResize (some (width, height)) (0, 0)).1 ∧
    10 ≤ (viewOnResize (some (width, height)) (0, 0)).2 := by
  have hm : multiViewRootOnResize (some (width, height)) d (0, 0) =
      (max ⌊width * d⌋ 10, max ⌊height * d⌋ 10) := by
    simp [multiViewRootOnResize, hd]
  refine ⟨hm, ?_, ?_, rfl, le_max_right _ _, le_max_right _ _⟩
  · rw [hm]; exact le_max_right _ _
  · rw [hm]; exact le_max_right _ _

/-- Witness for claim C4 (amended): at logical size 100 × 50 and device
pixel ratio 2 the hypotheses hold and both resize behaviours are as
stated. -/
theorem onResize_backing_store_witness :
    multiViewRootOnResize (some (100, 50)) 2 (0, 0) =
      (max ⌊(100 : ℚ) * 2⌋ 10, max ⌊(50 : ℚ) * 2⌋ 10) ∧
    10 ≤ (multiViewRootOnResize (some (100, 50)) 2 (0, 0)).1 ∧
    10 ≤ (multiViewRootOnResize (some (100, 50)) 2 (0, 0)).2 ∧
    viewOnResize (some (100, 50)) (0, 0) =
      (max (100 : ℚ) 10, max (50 : ℚ) 10) ∧
    10 ≤ (viewOnResize (some (100, 50)) (0, 0)).1 ∧
    10 ≤ (viewOnResize (some (100, 50)) (0, 0)).2 :=
  onResize_backing_store 100 50 2 (by norm_num)

/-- Claim C5: every caller-supplied cell write of an update is stored at
the width chosen from the total length of the points prop array, with the
threshold at 196608 numbers: at most 196608 numbers gives the narrow
16-bit width, 196609 or more gives the wide 32-bit width. -/
theorem polyDataUpdate_manual_width (props : PolyDataProps)
    (previous : Option PolyDataProps) (hasRep : Bool) (slot : CellSlot)
    (wdt : CellWidth) (d : List Int)
    (h : Write.cellData slot wdt d false ∈
      (polyDataUpdate props previous hasRep).writes) :
    wdt = cellWidthFor props.points.data.length ∧
    (props.points.data.length ≤ 196608 → wdt = CellWidth.narrow16) ∧
    (196609 ≤ props.points.data.length → wdt = CellWidth.wide32) := by
  have hw : wdt = cellWidthFor props.points.data.length := by
    rcases mem_polyDataUpdate_writes _ _ _ _ h with hm | ⟨cw, hs, hmem⟩
    · rcases mem_polyDataManualWrites _ _ _ hm with h1 | ⟨s, dd, h2⟩
      · exact absurd h1 (by simp)
      · simp only [Write.cellData.injEq] at h2
        exact h2.2.1
    · rcases mem_synthesizeConnectivity _ _ _ hs hmem with ⟨s, dd, h2⟩
      simp only [Write.cellData.injEq] at h2
      exact absurd h2.2.2.2 (by simp)
  refine ⟨hw, ?_, ?_⟩
  · intro hle
    rw [hw]
    unfold cellWidthFor
    rw [if_neg (by omega)]
  · intro hge
    rw [hw]
    unfold cellWidthFor
    rw [if_pos (by omega)]

/-- Props for the C5 witness: a manual verts array with a 3-number points
array (below the threshold, so the narrow width). -/
def c5Props : PolyDataProps :=
  ⟨"manual", ⟨1, [0, 0, 0]⟩, some ⟨2, [2, 0, 1]⟩, none, none, none⟩

/-- Witness for claim C5: on mount with a 3-number points array the verts
array is pushed narrow, and the theorem's hypotheses hold there. -/
theorem polyDataUpdate_manual_width_witness :
    CellWidth.narrow16 = cellWidthFor c5Props.points.data.length ∧
    (c5Props.points.data.length ≤ 196608 →
      CellWidth.narrow16 = CellWidth.narrow16) ∧
    (196609 ≤ c5Props.points.data.length →
      CellWidth.narrow16 = CellWidth.wide32) :=
  polyDataUpdate_manual_width c5Props none true CellSlot.verts
    CellWidth.narrow16 [2, 0, 1] (by decide)

/-- Claim C6: in `triangles` connectivity mode, for a points array of
length `3n` with `n` divisible by 3, the update writes exactly the points
data followed by the synthesized polygon block, and that block is the
concatenation of `[3, i, i+1, i+2]` for `i = 0, 3, 6, ..., n-3`. -/
theorem polyDataUpdate_triangles_block (n : Nat) (pts : JSArr)
    (hasRep : Bool) (hn : n % 3 = 0) (hlen : pts.data.length = 3 * n) :
    (polyDataUpdate ⟨"triangles", pts, none, none, none, none⟩ none
        hasRep).writes =
      [Write.pointsData pts.data,
       Write.cellData CellSlot.polys CellWidth.wide32
         ((List.range' 0 (n / 3) 3).flatMap
           (fun i => [(3 : Int), (i : Int), (i : Int) + 1, (i : Int) + 2]))
         true] := by
  have hfill := trianglesFill_concat (n / 3) 0 n (Nat.div_le_self n 3)
  rw [show 0 + 3 * (n / 3) = n by omega] at hfill
  have h9 : ¬pts.data.length % 9 ≠ 0 := by omega
  unfold polyDataUpdate
  rw [if_pos (by rfl)]
  unfold synthesizeConnectivity
  rw [if_neg h9]
  simp [finishUpdate, polyDataManualWrites, pointsWrite, manualCellWrites,
    hlen, show 3 * n / 3 = n by omega, hfill]

/-- Points array for the C6 witness: a single triangle (9 numbers, so
`n = 3` points with `n` divisible by 3). -/
def c6Points : JSArr := ⟨0, [0, 0, 0, 1, 0, 0, 0, 1, 0]⟩

/-- Witness for claim C6: mounting with the single-triangle points array
satisfies the hypotheses, and the update writes the points followed by
the synthesized polygon block `[3, 0, 1, 2]`. -/
theorem polyDataUpdate_triangles_block_witness :
    (polyDataUpdate ⟨"triangles", c6Points, none, none, none, none⟩ none
        true).writes =
      [Write.pointsData c6Points.data,
       Write.cellData CellSlot.polys CellWidth.wide32
         ((List.range' 0 (3 / 3) 3).flatMap
           (fun i => [(3 : Int), (i : Int), (i : Int) + 1, (i : Int) + 2]))
         true] :=
  polyDataUpdate_triangles_block 3 c6Points true (by decide) (by decide)

/-- Claim C8: mounting a `PolyData` whose latched Downstream reference is
null fails — a synchronous exception escapes `componentDidMount` to the
caller, and the dataset is never registered as a pipeline input. -/
theorem polyDataMount_null_downstream_fails (props : PolyDataProps)
    (port : Nat) (hasRep : Bool) :
    (polyDataComponentDidMount props port hasRep none).registered = none ∧
    (polyDataComponentDidMount props port hasRep none).thrown.isSome
      = true := by
  cases h : (polyDataUpdate props none hasRep).thrown with
  | none => simp [polyDataComponentDidMount, h]
  | some e => simp [polyDataComponentDidMount, h]

/-- Claim C9: across any sequence of render passes, the stored Downstream
reference equals the first non-null value among the initial reference and
the Downstream context values observed pass by pass — so it is latched at
the first render pass observing a non-null Downstream and never replaced
afterwards — while the Representation reference is overwritten with the
current context value on every single pass. -/
theorem polyDataRender_latches_downstream (s : PolyDataRefs)
    (passes : List (Option Nat × Option Nat)) :
    (polyDataRenderSeq s passes).downstream =
      (s.downstream :: passes.map Prod.snd).findSome? id ∧
    ∀ (t : PolyDataRefs) (r dCtx : Option Nat),
      (polyDataRender t r dCtx).theRep = r := by
  refine ⟨?_, fun t r dCtx => rfl⟩
  induction passes generalizing s with
  | nil =>
      cases h : s.downstream <;>
        simp [polyDataRenderSeq, List.findSome?, h]
  | cons c rest ih =>
      have hseq : polyDataRenderSeq s (c :: rest) =
          polyDataRenderSeq (polyDataRender s c.1 c.2) rest := rfl
      rw [hseq, ih]
      cases h : s.downstream <;>
        simp [polyDataRender, List.findSome?, h]

/-- Claim C10: every synthesized connectivity block an update writes (the
implicit `points`, `triangles` and `strips` modes) is stored wide
(32-bit), for every points-array length, independent of the 196608-number
threshold that picks the width of caller-supplied cell arrays. -/
theorem polyDataUpdate_synthesized_always_wide (props : PolyDataProps)
    (previous : Option PolyDataProps) (hasRep : Bool) (slot : CellSlot)
    (wdt : CellWidth) (d : List Int)
    (h : Write.cellData slot wdt d true ∈
      (polyDataUpdate props previous hasRep).writes) :
    wdt = CellWidth.wide32 := by
  rcases mem_polyDataUpdate_writes _ _ _ _ h with hm | ⟨cw, hs, hmem⟩
  · rcases mem_polyDataManualWrites _ _ _ hm with h1 | ⟨s, dd, h2⟩
    · exact absurd h1 (by simp)
    · simp only [Write.cellData.injEq] at h2
      exact absurd h2.2.2.2 (by simp)
  · rcases mem_synthesizeConnectivity _ _ _ hs hmem with ⟨s, dd, h2⟩
    simp only [Write.cellData.injEq] at h2
    exact h2.2.1

/-- Props for the C10 witness: implicit `points` mode with a one-point
array, far below the narrow/wide threshold. -/
def c10Props : PolyDataProps :=
  ⟨"points", ⟨0, [0, 0, 0]⟩, none, none, none, none⟩

/-- Witness for claim C10: with a 3-number points array (which selects
the narrow width for caller-supplied arrays) the synthesized verts block
is nevertheless written wide, and the theorem applies to it. -/
theorem polyDataUpdate_synthesized_always_wide_witness :
    Write.cellData CellSlot.verts CellWidth.wide32 (pointsModeBlock 1) true
        ∈ (polyDataUpdate c10Props none true).writes ∧
    CellWidth.wide32 = CellWidth.wide32 :=
  ⟨by decide,
   polyDataUpdate_synthesized_always_wide c10Props none true CellSlot.verts
     CellWidth.wide32 (pointsModeBlock 1) (by decide)⟩
